import Mathlib

/-!
Shallow embedding of the cptpy record store (`CPT` in `cptpy/cpt.py`, `CPTu`
in `cptpy/cptu.py`) and of the operations the specification talks about:
the `sanity_check` validation pipeline, slicing (`__getitem__`), equality
(`is_similar` / `__eq__`), the pore-pressure quantities (`u0`, `qt`) and the
iterative unit-weight estimate (`par_unit_weight.mayne_et_al_2010_cpt` with
`geotech_tools.vertical_effective_stress`).  Python floats are idealised as
exact rationals; numpy row operations become list operations on the row list
of the backing matrix.
-/

/-- Python exception classes distinguished by the embedded code.  The source
raises `ValueError` (bad `apply_fixes` string, the hand-written
"define gwt" error, numpy broadcast failures), `TypeError`
(`ndarray - None`), `NameError` (use of an undefined global name) and
`RuntimeError` (the convergence failure in `par_unit_weight`). -/
inductive PyError where
  | valueError
  | typeError
  | nameError
  | runtimeError
  deriving DecidableEq, Repr

/-- The backing storage `self._cpt`: a dense `(N, C)` matrix held as a list
of rows, each row `[depth, qc, fs]` for the 3-column variant or
`[depth, qc, fs, u2]` for the 4-column variant. -/
abbrev Mat := List (List ℚ)

/-- A `CPT`/`CPTu` object: the `_ncols_in_cpt` class constant, the backing
matrix `_cpt`, and the optional ground-water-table scalar `gwt` of `CPTu`
(`none` models Python `None`; the base `CPT` never sets the attribute, which
is also modelled by `none` since `sanity_check`, slicing and equality never
read it on a 3-column store). -/
structure CPTData where
  ncols : ℕ
  mat : Mat
  gwt : Option ℚ
  deriving DecidableEq, Repr

/-- Column `j` of the matrix, as read by the `depth`/`qc`/`fs`/`u2`
properties (out-of-range reads default to `0`; they never happen on
well-formed stores). -/
def colD (j : ℕ) (m : Mat) : List ℚ := m.map (fun r => r.getD j 0)

/-- Rows of a 3-column store built by `CPT.__init__` from equal-length
`depth`, `qc`, `fs` sequences (identity unit converters). -/
def rows3 : List ℚ → List ℚ → List ℚ → Mat
  | d :: ds, q :: qs, f :: fs => [d, q, f] :: rows3 ds qs fs
  | _, _, _ => []

/-- Rows of a 4-column store built by `CPTu.__init__` from equal-length
`depth`, `qc`, `fs`, `u2` sequences (identity unit converters). -/
def rows4 : List ℚ → List ℚ → List ℚ → List ℚ → Mat
  | d :: ds, q :: qs, f :: fs, u :: us => [d, q, f, u] :: rows4 ds qs fs us
  | _, _, _, _ => []

/-- `CPT(depth, qc, fs)` with identity converters. -/
def CPT.make (depth qc fs : List ℚ) : CPTData :=
  { ncols := 3, mat := rows3 depth qc fs, gwt := none }

/-- `CPTu(depth, qc, fs, u2, gwt)` with identity converters. -/
def CPTu.make (depth qc fs u2 : List ℚ) (gwt : Option ℚ) : CPTData :=
  { ncols := 4, mat := rows4 depth qc fs u2, gwt := gwt }

/-- Consecutive differences `self.depth[1:] - self.depth[:-1]`. -/
def diffs (l : List ℚ) : List ℚ := List.zipWith (fun a b => a - b) l.tail l

/-- Helper of `deleteRows`, walking the rows with their position. -/
def deleteRowsFrom (idxs : List ℕ) (i : ℕ) : Mat → Mat
  | [] => []
  | r :: rs =>
    if idxs.contains i then deleteRowsFrom idxs (i + 1) rs
    else r :: deleteRowsFrom idxs (i + 1) rs

/-- `np.delete(self._cpt, indices_to_delete, axis=0)`: remove the rows whose
position is listed, keeping the remaining rows in order. -/
def deleteRows (m : Mat) (idxs : List ℕ) : Mat := deleteRowsFrom idxs 0 m

/-- Helper of `flagged`, walking the rows with their position. -/
def flaggedFrom (p : List ℚ → Bool) (i : ℕ) : Mat → List ℕ
  | [] => []
  | r :: rs => if p r then i :: flaggedFrom p (i + 1) rs else flaggedFrom p (i + 1) rs

/-- Row positions flagged by a per-row predicate
(`np.argwhere(...).flatten()`). -/
def flagged (p : List ℚ → Bool) (m : Mat) : List ℕ := flaggedFrom p 0 m

/-- Positions in a value list satisfying a predicate (used for the
difference array of the duplicate-depth check). -/
def idxWhereFrom (p : ℚ → Bool) (i : ℕ) : List ℚ → List ℕ
  | [] => []
  | x :: xs => if p x then i :: idxWhereFrom p (i + 1) xs else idxWhereFrom p (i + 1) xs

/-- Check 1 of `sanity_check` (cpt.py lines 140-145): if any depth is `≤ 0`,
collect the offending row indices and delete them when the decision is
"yes"; under `apply_fixes="no"` the collected index list is empty
(`handle_problematic_indices` appends an index only when
`response == "y" or apply_fixes == "yes"`), so nothing is deleted. -/
def step_nonpositive_depth (ap : Bool) (m : Mat) : Mat :=
  if (colD 0 m).any (fun d => decide (d ≤ 0)) then
    deleteRows m (if ap then flagged (fun r => decide (r.getD 0 0 ≤ 0)) m else [])
  else m

/-- The relation by which `np.argsort` orders the rows: comparison of the
depth entry (column 0). -/
def rowLE (a b : List ℚ) : Prop := a.getD 0 0 ≤ b.getD 0 0

instance : DecidableRel rowLE :=
  fun a b => inferInstanceAs (Decidable (a.getD 0 0 ≤ b.getD 0 0))

instance : IsTotal (List ℚ) rowLE := ⟨fun _ _ => le_total _ _⟩

instance : IsTrans (List ℚ) rowLE := ⟨fun _ _ _ h h2 => le_trans h h2⟩

/-- `self._cpt = self._cpt[np.argsort(self.depth), :]` — reorder the whole
row list by depth.  `np.argsort`'s default `kind='quicksort'` leaves the
relative order of equal depths unspecified (numpy documents it as not
stable); the embedding must pin some order, and pins the stable
insertion-sort order (Mathlib's `insertionSort`).  Below numpy's
16-element small-array cutoff the implementation is a straight insertion
sort, so on every concrete store evaluated in this file the pinned order
coincides with numpy's exactly (the one evaluated input with a depth tie,
`c2_store`, is already ordered, where the insertion sort moves nothing);
on larger stores with ties the true tie order is not derivable from the
repository's source, and no theorem below relies on it. -/
def sortRowsByDepth (m : Mat) : Mat := List.insertionSort rowLE m

/-- Check 2 of `sanity_check` (cpt.py lines 147-157): if any consecutive
depth difference is `≤ 0`, sort the whole store by depth when the decision
is "yes" ("no" leaves the store untouched). -/
def step_monotonic (ap : Bool) (m : Mat) : Mat :=
  if (diffs (colD 0 m)).any (fun d => decide (d ≤ 0)) then
    (if ap then sortRowsByDepth m else m)
  else m

/-- The fixed duplicate-depth epsilon `1E-6` of cpt.py line 161. -/
def EPS : ℚ := 1 / 1000000

/-- Diff positions with `diff < 1E-6`
(`np.argwhere(diff < 1E-6).flatten()`); note these index the *difference*
array, so position `i` names the earlier row of the close pair
`(i, i+1)`. -/
def flaggedDup (m : Mat) : List ℕ :=
  idxWhereFrom (fun d => decide (d < EPS)) 0 (diffs (colD 0 m))

/-- Check 3 of `sanity_check` (cpt.py lines 159-165): delete the rows at the
flagged *diff* positions when the decision is "yes". -/
def step_duplicate (ap : Bool) (m : Mat) : Mat :=
  if (diffs (colD 0 m)).any (fun d => decide (d < EPS)) then
    deleteRows m (if ap then flaggedDup m else [])
  else m

/-- Check 4 of `sanity_check` (cpt.py lines 167-172): delete every row whose
`qc` or `fs` entry is `≤ 0` when the decision is "yes". -/
def step_qcfs (ap : Bool) (m : Mat) : Mat :=
  if m.any (fun r => decide (r.getD 1 0 ≤ 0) || decide (r.getD 2 0 ≤ 0)) then
    deleteRows m
      (if ap then flagged (fun r => decide (r.getD 1 0 ≤ 0) || decide (r.getD 2 0 ≤ 0)) m else [])
  else m

/-- Row positions visited by the outlier loop,
`enumerate(self._cpt[window_pts:-window_pts], start=window_pts)`:
positions `w ≤ i < n - w`.  For `w = 0` the Python slice `[0:-0]` is
`[0:0]`, i.e. empty, so no row is visited. -/
def screenIndices (n w : ℕ) : List ℕ :=
  if w = 0 then []
  else (List.range n).filter (fun i => decide (w ≤ i) && decide (i + w < n))

/-- The reference region of row `i`:
`np.delete(self._cpt[i-w : i+w+1], w, axis=0)` — the `2w` neighbouring rows,
the centre row excluded. -/
def regionOf (m : Mat) (i w : ℕ) : Mat :=
  ((m.drop (i - w)).take (2 * w + 1)).eraseIdx w

/-- `np.mean(region, axis=0)` for column `j`. -/
def colMean (j : ℕ) (reg : Mat) : ℚ := (colD j reg).sum / (reg.length : ℚ)

/-- The square of `np.std(region, axis=0, ddof=1)` for column `j`: the
sample variance with divisor `n - 1`. -/
def colVarS (j : ℕ) (reg : Mat) : ℚ :=
  ((colD j reg).map (fun x => (x - colMean j reg) ^ 2)).sum / ((reg.length - 1 : ℕ) : ℚ)

/-- The rejection test `np.abs(x - mean)/std > reject_nstd` of cpt.py lines
181-183, stated on the variance (the square of the `np.std` value).  For
`var > 0` and `t ≥ 0` this is the squared form of the source's comparison;
for `var = 0` the source divides by zero, giving `inf` when `x ≠ mean`
(comparison true) and `nan` when `x = mean` (comparison false, as every
IEEE comparison with `nan` is), which is exactly `(x - mean)² > t² * 0`. -/
def zExceeds (x mean var t : ℚ) : Bool := decide (t ^ 2 * var < (x - mean) ^ 2)

/-- Row positions flagged by check 5 (cpt.py lines 174-184): a visited row
whose `qc` or `fs` z-score against its own region statistics exceeds the
threshold. -/
def flaggedOutliers (m : Mat) (w : ℕ) (t : ℚ) : List ℕ :=
  (screenIndices m.length w).filter (fun i =>
    zExceeds ((m.getD i []).getD 1 0) (colMean 1 (regionOf m i w)) (colVarS 1 (regionOf m i w)) t
      || zExceeds ((m.getD i []).getD 2 0) (colMean 2 (regionOf m i w)) (colVarS 2 (regionOf m i w)) t)

/-- Check 5 of `sanity_check` (cpt.py lines 174-189): collect all outlier
rows in one pass over the current store, then delete them together when the
decision is "yes" (the delete call runs unconditionally in the source, on an
empty index list when nothing is flagged or the decision is "no"). -/
def step_outlier (ap : Bool) (w : ℕ) (t : ℚ) (m : Mat) : Mat :=
  deleteRows m (if ap then flaggedOutliers m w t else [])

/-- The five checks of `CPT.sanity_check` in source order, each resolved
before the next runs. -/
def sanityMat (ap : Bool) (w : ℕ) (t : ℚ) (m : Mat) : Mat :=
  step_outlier ap w t (step_qcfs ap (step_duplicate ap (step_monotonic ap (step_nonpositive_depth ap m))))

/-- `CPT.sanity_check(apply_fixes, window_pts, reject_nstd)` restricted to
the two non-interactive policies: `ap = true` models `apply_fixes="yes"`
(every decision "yes"), `ap = false` models `apply_fixes="no"` (every
decision "no").  `apply_fixes="prompt"` routes each decision to stdin and is
outside this embedding; an unrecognised mode string raises `ValueError`
before any check runs and is likewise not modelled here. -/
def sanity_check (c : CPTData) (ap : Bool) (w : ℕ) (t : ℚ) : CPTData :=
  { c with mat := sanityMat ap w t c.mat }

/-! Helper lemmas for the report-only (`"no"`) policy. -/

lemma deleteRowsFrom_nil (i : ℕ) (m : Mat) : deleteRowsFrom [] i m = m := by
  induction m generalizing i with
  | nil => rfl
  | cons r rs ih => simp [deleteRowsFrom, ih]

lemma deleteRows_nil (m : Mat) : deleteRows m [] = m := deleteRowsFrom_nil 0 m

lemma step_nonpositive_depth_false (m : Mat) : step_nonpositive_depth false m = m := by
  unfold step_nonpositive_depth
  split
  · simp [deleteRows_nil]
  · rfl

lemma step_monotonic_false (m : Mat) : step_monotonic false m = m := by
  unfold step_monotonic
  split
  · rfl
  · rfl

lemma step_duplicate_false (m : Mat) : step_duplicate false m = m := by
  unfold step_duplicate
  split
  · simp [deleteRows_nil]
  · rfl

lemma step_qcfs_false (m : Mat) : step_qcfs false m = m := by
  unfold step_qcfs
  split
  · simp [deleteRows_nil]
  · rfl

lemma step_outlier_false (w : ℕ) (t : ℚ) (m : Mat) : step_outlier false w t m = m := by
  simp [step_outlier, deleteRows_nil]

/-- C1: under the report-only policy (`apply_fixes="no"`), `sanity_check`
leaves the store — row count, every entry of every column (including `u2`
on the 4-column variant), row order, and the `gwt` attribute — completely
unchanged, for every store and all window/threshold settings. -/
theorem c1_report_only_never_mutates (c : CPTData) (w : ℕ) (t : ℚ) :
    sanity_check c false w t = c := by
  cases c with
  | mk n m g =>
    simp [sanity_check, sanityMat, step_outlier_false, step_qcfs_false,
      step_duplicate_false, step_monotonic_false, step_nonpositive_depth_false]

/-- The store of the repository's own duplicate-depth test
(`test_cpt.py::test_sanity_check`): depths `[0.1,0.2,0.2,0.3,0.4]` with the
test's `qc` and `fs` columns. -/
def c2_store : CPTData :=
  CPT.make [1/10, 1/5, 1/5, 3/10, 2/5]
    [10000, 10100, 10300, 10200, 10500]
    [100, 120, 130, 110, 140]

/-- C2: on depths `[0.1,0.2,0.2,0.3,0.4]` the duplicate-depth check flags
diff position 1 and therefore deletes row index 1 — the *earlier* row of the
close pair, carrying `qc = 10100`, `fs = 120` — whereas the claim (and the
repository's own test, which expects `del expected[2]`) says the later row,
index 2 with `qc = 10300`, `fs = 130`, is removed.  The first conjunct
evaluates the code at the failing input; the second shows the store the
repository's test expects differs from what the code produces. -/
theorem c2_duplicate_check_deletes_earlier_row :
    sanity_check c2_store true 3 6 =
      CPT.make [1/10, 1/5, 3/10, 2/5] [10000, 10300, 10200, 10500] [100, 130, 110, 140] ∧
    sanity_check c2_store true 3 6 ≠
      CPT.make [1/10, 1/5, 3/10, 2/5] [10000, 10100, 10200, 10500] [100, 120, 110, 140] := by
  have h : sanity_check c2_store true 3 6 =
      CPT.make [1/10, 1/5, 3/10, 2/5] [10000, 10300, 10200, 10500] [100, 130, 110, 140] := by
    norm_num [sanity_check, sanityMat, step_outlier, step_qcfs, step_duplicate,
      step_monotonic, step_nonpositive_depth, c2_store, CPT.make, rows3, colD,
      diffs, EPS, flagged, flaggedFrom, flaggedDup, idxWhereFrom, deleteRows,
      deleteRowsFrom, sortRowsByDepth, List.insertionSort, List.orderedInsert,
      rowLE, screenIndices, flaggedOutliers, List.range_succ, regionOf,
      colMean, colVarS, zExceeds]
  refine ⟨h, ?_⟩
  rw [h]
  norm_num [CPT.make, rows3]

/-- A store on which `sanity_check` in `apply` mode is not idempotent:
depths `0.1 .. 0.9`, constant `fs`, and a `qc` column with a large spike at
row 4 next to a mild deviant at row 5.  The first run deletes only the
spike; with the spike gone, row 5's reference region becomes constant
(variance zero) while its own `qc` differs, so the second run flags and
deletes it as well. -/
def c3_store : CPTData :=
  CPT.make [1/10, 1/5, 3/10, 2/5, 1/2, 3/5, 7/10, 4/5, 9/10]
    [100, 100, 100, 100, 1000, 110, 100, 100, 100]
    [100, 100, 100, 100, 100, 100, 100, 100, 100]

/-- C3 fails in general: running `sanity_check` twice in `apply` mode with
the default window 3 and threshold 6 on `c3_store` removes a further row on
the second run (8 rows after the first run, 7 after the second), so the
store after the second run differs from the store after the first. -/
theorem c3_counterexample_not_idempotent :
    sanity_check (sanity_check c3_store true 3 6) true 3 6 ≠
      sanity_check c3_store true 3 6 := by
  have h1 : sanity_check c3_store true 3 6 =
      CPT.make [1/10, 1/5, 3/10, 2/5, 3/5, 7/10, 4/5, 9/10]
        [100, 100, 100, 100, 110, 100, 100, 100]
        [100, 100, 100, 100, 100, 100, 100, 100] := by
    norm_num [sanity_check, sanityMat, step_outlier, step_qcfs, step_duplicate,
      step_monotonic, step_nonpositive_depth, c3_store, CPT.make, rows3, colD,
      diffs, EPS, flagged, flaggedFrom, flaggedDup, idxWhereFrom, deleteRows,
      deleteRowsFrom, sortRowsByDepth, List.insertionSort, List.orderedInsert,
      rowLE, screenIndices, flaggedOutliers, List.range_succ, regionOf,
      colMean, colVarS, zExceeds]
  have h2 : sanity_check (CPT.make [1/10, 1/5, 3/10, 2/5, 3/5, 7/10, 4/5, 9/10]
        [100, 100, 100, 100, 110, 100, 100, 100]
        [100, 100, 100, 100, 100, 100, 100, 100]) true 3 6 =
      CPT.make [1/10, 1/5, 3/10, 2/5, 7/10, 4/5, 9/10]
        [100, 100, 100, 100, 100, 100, 100]
        [100, 100, 100, 100, 100, 100, 100] := by
    norm_num [sanity_check, sanityMat, step_outlier, step_qcfs, step_duplicate,
      step_monotonic, step_nonpositive_depth, CPT.make, rows3, colD,
      diffs, EPS, flagged, flaggedFrom, flaggedDup, idxWhereFrom, deleteRows,
      deleteRowsFrom, sortRowsByDepth, List.insertionSort, List.orderedInsert,
      rowLE, screenIndices, flaggedOutliers, List.range_succ, regionOf,
      colMean, colVarS, zExceeds]
  rw [h1, h2]
  norm_num [CPT.make, rows3]

/-- C3 amended: the particular store family named by the claim is a fixed
point of a single `apply` run — with depths `[0.1,0.2,0.3,0.4,0.5]` (sorted,
positive, no duplicates) and any strictly positive `qc` and `fs` values, the
default-parameter `apply` run changes nothing, so a second run changes
nothing either. -/
theorem c3_amended_example_fixed_point
    (q1 q2 q3 q4 q5 f1 f2 f3 f4 f5 : ℚ)
    (hq1 : 0 < q1) (hq2 : 0 < q2) (hq3 : 0 < q3) (hq4 : 0 < q4) (hq5 : 0 < q5)
    (hf1 : 0 < f1) (hf2 : 0 < f2) (hf3 : 0 < f3) (hf4 : 0 < f4) (hf5 : 0 < f5) :
    sanity_check
        (CPT.make [1/10, 1/5, 3/10, 2/5, 1/2] [q1, q2, q3, q4, q5] [f1, f2, f3, f4, f5])
        true 3 6 =
      CPT.make [1/10, 1/5, 3/10, 2/5, 1/2] [q1, q2, q3, q4, q5] [f1, f2, f3, f4, f5] := by
  have eq1 : decide (q1 ≤ 0) = false := decide_eq_false (not_le.mpr hq1)
  have eq2 : decide (q2 ≤ 0) = false := decide_eq_false (not_le.mpr hq2)
  have eq3 : decide (q3 ≤ 0) = false := decide_eq_false (not_le.mpr hq3)
  have eq4 : decide (q4 ≤ 0) = false := decide_eq_false (not_le.mpr hq4)
  have eq5 : decide (q5 ≤ 0) = false := decide_eq_false (not_le.mpr hq5)
  have ef1 : decide (f1 ≤ 0) = false := decide_eq_false (not_le.mpr hf1)
  have ef2 : decide (f2 ≤ 0) = false := decide_eq_false (not_le.mpr hf2)
  have ef3 : decide (f3 ≤ 0) = false := decide_eq_false (not_le.mpr hf3)
  have ef4 : decide (f4 ≤ 0) = false := decide_eq_false (not_le.mpr hf4)
  have ef5 : decide (f5 ≤ 0) = false := decide_eq_false (not_le.mpr hf5)
  norm_num [sanity_check, sanityMat, step_outlier, step_qcfs, step_duplicate,
    step_monotonic, step_nonpositive_depth, CPT.make, rows3, colD, diffs, EPS,
    deleteRows, deleteRowsFrom, screenIndices, flaggedOutliers, List.range_succ,
    eq1, eq2, eq3, eq4, eq5, ef1, ef2, ef3, ef4, ef5]

/-- Witness for C3's amended claim at `qc = fs = 1` everywhere. -/
theorem c3_amended_example_fixed_point_witness :
    sanity_check
        (CPT.make [1/10, 1/5, 3/10, 2/5, 1/2] [1, 1, 1, 1, 1] [1, 1, 1, 1, 1])
        true 3 6 =
      CPT.make [1/10, 1/5, 3/10, 2/5, 1/2] [1, 1, 1, 1, 1] [1, 1, 1, 1, 1] :=
  c3_amended_example_fixed_point 1 1 1 1 1 1 1 1 1 1
    (by norm_num) (by norm_num) (by norm_num) (by norm_num) (by norm_num)
    (by norm_num) (by norm_num) (by norm_num) (by norm_num) (by norm_num)

/-! Slicing and equality (`CPT.__getitem__`, `CPT.is_similar`,
`CPT.__eq__`, cpt.py lines 314-355). -/

/-- `np.isclose` on two scalars with numpy's defaults
`rtol = 1e-5`, `atol = 1e-8`: `|a - b| ≤ atol + rtol * |b|`. -/
def closeQ (a b : ℚ) : Bool :=
  decide (|a - b| ≤ 1 / 100000000 + (1 / 100000) * |b|)

/-- Elementwise closeness of two rows (see `allclose`). -/
def allcloseRow : List ℚ → List ℚ → Bool
  | x :: xs, y :: ys => closeQ x y && allcloseRow xs ys
  | _, _ => true

/-- `np.allclose(self._cpt, other._cpt)` on same-shape matrices — the only
reachable call site compares matrices of equal row count (checked by
`is_similar` first) and equal column count (otherwise the call raises, see
`pyEq`). -/
def allclose : Mat → Mat → Bool
  | r :: rs, s :: ss => allcloseRow r s && allclose rs ss
  | _, _ => true

/-- `CPT.is_similar(other)`: `other` is an instance of `CPT` (true for
every embedded store, `CPTu` included) and the lengths agree. -/
def is_similar (a b : CPTData) : Bool := a.mat.length == b.mat.length

/-- `CPT.__eq__` (cpt.py lines 348-355): gate on `is_similar`, then
`np.allclose` on the two backing matrices.  When the row counts agree but
the column counts differ (a 3-column store against a 4-column store),
`np.allclose` cannot broadcast `(N,3)` against `(N,4)` and raises
`ValueError` instead of returning a boolean. -/
def pyEq (a b : CPTData) : Except PyError Bool :=
  if is_similar a b then
    if a.ncols = b.ncols then .ok (allclose a.mat b.mat)
    else .error .valueError
  else .ok false

/-- `CPT.__getitem__(key)` (cpt.py lines 314-319): read the `depth`, `qc`
and `fs` columns at the selected positions and build a fresh 3-column
`CPT` from them — the hard-coded attribute list and `CPT(**kwargs)` call
drop the `u2` column and the `gwt` attribute of a 4-column store. -/
def getitem (c : CPTData) (idx : List ℕ) : CPTData :=
  CPT.make (idx.map (fun i => (colD 0 c.mat).getD i 0))
    (idx.map (fun i => (colD 1 c.mat).getD i 0))
    (idx.map (fun i => (colD 2 c.mat).getD i 0))

/-- Slicing with the full index range, `cpt[0:N]`. -/
def fullSlice (c : CPTData) : CPTData := getitem c (List.range c.mat.length)

lemma closeQ_self (a : ℚ) : closeQ a a = true := by
  simp only [closeQ, sub_self, abs_zero, decide_eq_true_eq]
  positivity

lemma allcloseRow_self (r : List ℚ) : allcloseRow r r = true := by
  induction r with
  | nil => rfl
  | cons x xs ih => simp [allcloseRow, closeQ_self, ih]

lemma allclose_self (m : Mat) : allclose m m = true := by
  induction m with
  | nil => rfl
  | cons r rs ih => simp [allclose, allcloseRow_self, ih]

lemma range_map_getD (l : List ℚ) :
    (List.range l.length).map (fun i => l.getD i 0) = l := by
  induction l with
  | nil => rfl
  | cons a t ih =>
    have hc : ((fun i => (a :: t).getD i 0) ∘ Nat.succ) = fun i => t.getD i 0 := by
      funext i
      rfl
    rw [List.length_cons, List.range_succ_eq_map, List.map_cons, List.map_map, hc, ih]
    rfl

lemma colD_length (j : ℕ) (m : Mat) : (colD j m).length = m.length := by
  simp [colD]

lemma rows3_cols_eq_self (m : Mat) (h : ∀ r ∈ m, r.length = 3) :
    rows3 (colD 0 m) (colD 1 m) (colD 2 m) = m := by
  induction m with
  | nil => rfl
  | cons r t ih =>
    obtain ⟨a, b, c, rfl⟩ := List.length_eq_three.mp (h r (List.mem_cons_self r t))
    rw [show colD 0 ([a, b, c] :: t) = a :: colD 0 t from rfl,
      show colD 1 ([a, b, c] :: t) = b :: colD 1 t from rfl,
      show colD 2 ([a, b, c] :: t) = c :: colD 2 t from rfl]
    rw [show rows3 (a :: colD 0 t) (b :: colD 1 t) (c :: colD 2 t) =
      [a, b, c] :: rows3 (colD 0 t) (colD 1 t) (colD 2 t) from rfl]
    rw [ih (fun r hr => h r (List.mem_cons_of_mem _ hr))]

lemma fullSlice_mat_eq (c : CPTData) (h : ∀ r ∈ c.mat, r.length = 3) :
    (fullSlice c).mat = c.mat := by
  have hm : ∀ j, (List.range c.mat.length).map (fun i => (colD j c.mat).getD i 0) =
      colD j c.mat := by
    intro j
    rw [show c.mat.length = (colD j c.mat).length from (colD_length j c.mat).symm]
    exact range_map_getD (colD j c.mat)
  show rows3 _ _ _ = c.mat
  rw [hm 0, hm 1, hm 2]
  exact rows3_cols_eq_self c.mat h

lemma rows3_length (ds qs fs : List ℚ) (h1 : ds.length = qs.length)
    (h2 : ds.length = fs.length) : (rows3 ds qs fs).length = ds.length := by
  induction ds generalizing qs fs with
  | nil => rfl
  | cons d dt ih =>
    cases qs with
    | nil => simp at h1
    | cons q qt =>
      cases fs with
      | nil => simp at h2
      | cons f ft =>
        simp only [List.length_cons] at h1 h2
        show (rows3 dt qt ft).length + 1 = dt.length + 1
        rw [ih qt ft (by omega) (by omega)]

/-- C5 amended: full-range slicing of a 3-column store yields a fresh store
of the same column layout which `__eq__` reports equal to the original; but
on a 4-column store `__getitem__` returns a 3-column store — the `u2`
column is dropped — and `__eq__` against the original raises the numpy
broadcast `ValueError` instead of reporting equality. -/
theorem c5_full_slice_roundtrip :
    (∀ c : CPTData, c.ncols = 3 → (∀ r ∈ c.mat, r.length = 3) →
      (fullSlice c).ncols = c.ncols ∧ pyEq (fullSlice c) c = .ok true) ∧
    (∀ c : CPTData, c.ncols = 4 → (∀ r ∈ c.mat, r.length = 4) →
      (fullSlice c).ncols = 3 ∧ pyEq (fullSlice c) c = .error .valueError) := by
  constructor
  · intro c h3 hw
    have hm := fullSlice_mat_eq c hw
    refine ⟨by rw [h3]; rfl, ?_⟩
    rw [pyEq, if_pos (by simp [is_similar, hm]), if_pos (by rw [h3]; rfl)]
    rw [hm, allclose_self]
  · intro c h4 hw
    have hlen : (fullSlice c).mat.length = c.mat.length := by
      have := rows3_length
        ((List.range c.mat.length).map (fun i => (colD 0 c.mat).getD i 0))
        ((List.range c.mat.length).map (fun i => (colD 1 c.mat).getD i 0))
        ((List.range c.mat.length).map (fun i => (colD 2 c.mat).getD i 0))
        (by simp) (by simp)
      simpa [fullSlice, getitem, CPT.make] using this
    refine ⟨rfl, ?_⟩
    rw [pyEq, if_pos (by simp [is_similar, hlen])]
    rw [if_neg (by rw [h4]; exact (by norm_num : (3 : ℕ) ≠ 4))]

/-- Witness for C5 at a one-row 3-column store and a one-row 4-column
store. -/
theorem c5_full_slice_roundtrip_witness :
    ((fullSlice (CPT.make [1] [2] [3])).ncols = (CPT.make [1] [2] [3]).ncols ∧
      pyEq (fullSlice (CPT.make [1] [2] [3])) (CPT.make [1] [2] [3]) = .ok true) ∧
    ((fullSlice (CPTu.make [1] [2] [3] [4] none)).ncols = 3 ∧
      pyEq (fullSlice (CPTu.make [1] [2] [3] [4] none)) (CPTu.make [1] [2] [3] [4] none) =
        .error .valueError) :=
  ⟨c5_full_slice_roundtrip.1 (CPT.make [1] [2] [3]) rfl
      (by norm_num [CPT.make, rows3]),
    c5_full_slice_roundtrip.2 (CPTu.make [1] [2] [3] [4] none) rfl
      (by norm_num [CPTu.make, rows4])⟩

/-- C5 counterexample: on the 4-column store `CPTu([1],[2],[3],[4])`,
slicing with the full index range does not preserve the column layout
(`__getitem__` returns a 3-column store, dropping `u2`), and `__eq__`
against the original raises `ValueError` rather than reporting the two
equal. -/
theorem c5_counterexample_cptu_slice :
    (fullSlice (CPTu.make [1] [2] [3] [4] none)).ncols = 3 ∧
    (CPTu.make [1] [2] [3] [4] none).ncols = 4 ∧
    pyEq (fullSlice (CPTu.make [1] [2] [3] [4] none)) (CPTu.make [1] [2] [3] [4] none) =
      .error .valueError ∧
    pyEq (fullSlice (CPTu.make [1] [2] [3] [4] none)) (CPTu.make [1] [2] [3] [4] none) ≠
      .ok true := by
  have h : pyEq (fullSlice (CPTu.make [1] [2] [3] [4] none))
      (CPTu.make [1] [2] [3] [4] none) = .error .valueError := by
    norm_num [pyEq, is_similar, fullSlice, getitem, CPT.make, CPTu.make,
      rows3, rows4, colD, List.range_succ]
  refine ⟨rfl, rfl, h, ?_⟩
  rw [h]
  intro hh
  exact Except.noConfusion hh

/-- C9 amended: `__eq__` returns `True` exactly when the row counts agree,
the column counts agree, and every entry is numerically close
(`np.allclose`); it returns `False` whenever the row counts differ (no
failure in that case); but when the row counts agree and the column counts
differ — a 3-column store against a 4-column store of the same length — it
raises the numpy broadcast `ValueError` instead of returning `False`.
Note the variant is never checked directly: `is_similar` only tests
`isinstance(other, CPT)` (true for `CPTu` too) and the length. -/
theorem c9_eq_characterisation (a b : CPTData) :
    (pyEq a b = .ok true ↔
      a.mat.length = b.mat.length ∧ a.ncols = b.ncols ∧ allclose a.mat b.mat = true) ∧
    (pyEq a b = .error .valueError ↔
      a.mat.length = b.mat.length ∧ a.ncols ≠ b.ncols) ∧
    (a.mat.length ≠ b.mat.length → pyEq a b = .ok false) := by
  unfold pyEq is_similar
  by_cases hl : a.mat.length = b.mat.length
  · by_cases hc : a.ncols = b.ncols
    · rw [if_pos (by simpa using hl), if_pos hc]
      refine ⟨?_, ?_, fun hn => absurd hl hn⟩
      · constructor
        · intro h
          exact ⟨hl, hc, by simpa using h⟩
        · intro h
          simp [h.2.2]
      · constructor
        · intro h
          exact absurd h (by simp)
        · intro h
          exact absurd hc h.2
    · rw [if_pos (by simpa using hl), if_neg hc]
      refine ⟨?_, ?_, fun hn => absurd hl hn⟩
      · constructor
        · intro h
          exact absurd h (by simp)
        · intro h
          exact absurd h.2.1 hc
      · exact ⟨fun _ => ⟨hl, hc⟩, fun _ => rfl⟩
  · rw [if_neg (by simpa using hl)]
    refine ⟨?_, ?_, fun _ => rfl⟩
    · constructor
      · intro h
        exact absurd h (by simp)
      · intro h
        exact absurd h.1 hl
    · constructor
      · intro h
        exact absurd h (by simp)
      · intro h
        exact absurd h.1 hl

/-- C9 counterexample: `CPT([1],[2],[3]) == CPTu([1],[2],[3],[4])` — same
row count, different column count — raises `ValueError` (the `np.allclose`
broadcast failure) instead of returning `False`. -/
theorem c9_counterexample_shape_mismatch_raises :
    pyEq (CPT.make [1] [2] [3]) (CPTu.make [1] [2] [3] [4] none) = .error .valueError ∧
    pyEq (CPT.make [1] [2] [3]) (CPTu.make [1] [2] [3] [4] none) ≠ .ok false := by
  have h : pyEq (CPT.make [1] [2] [3]) (CPTu.make [1] [2] [3] [4] none) =
      .error .valueError := by
    norm_num [pyEq, is_similar, CPT.make, CPTu.make, rows3, rows4]
  refine ⟨h, ?_⟩
  rw [h]
  intro hh
  exact Except.noConfusion hh

/-! Pore-pressure quantities of `CPTu` (cptu.py). -/

/-- Modelled from the spec: the module `cptpy/constants.py` (imported for
`GAMMA_W` and `PA`) is not under `src/`; the spec names `GAMMA_W` the
`unit_weight_of_water`, taken here as 9.81 kN/m³.  None of the settled
claims depends on the numeric value. -/
def GAMMA_W : ℚ := 981 / 100

/-- `CPTu.u0` (cptu.py lines 58-71): computes
`(self.depth - self.gwt) * GAMMA_W` and clamps it to zero at and above the
water table.  When `gwt` is `None` (`CPTu.__init__` always sets the
attribute, to `None` when no value is given), `self.depth - self.gwt` is
`ndarray - None`, which raises `TypeError`; the surrounding
`except AttributeError` clause — meant to turn a missing `gwt` into the
hand-written "define gwt before re-attempting" `ValueError` — does not
catch it, so the raw `TypeError` escapes to the caller. -/
def CPTData.u0 (c : CPTData) : Except PyError (List ℚ) :=
  match c.gwt with
  | none => .error .typeError
  | some g => .ok ((colD 0 c.mat).map (fun d => if d ≤ g then 0 else (d - g) * GAMMA_W))

/-- C6: requesting `u0` on a 4-column store with `gwt` unset fails with the
uncaught `TypeError` from `ndarray - None` — not with the intended,
catchable "MissingParameter" `ValueError` — and after supplying a `gwt`
value the same request returns the hydrostatic profile. -/
theorem c6_u0_without_gwt_raises_typeerror :
    (CPTu.make [1] [2] [3] [4] none).u0 = .error .typeError ∧
    (CPTu.make [1] [2] [3] [4] none).u0 ≠ .error .valueError ∧
    (CPTu.make [1] [2] [3] [4] (some (1/2))).u0 = .ok [981/200] := by
  refine ⟨rfl, ?_, ?_⟩
  · intro hh
    have := Except.error.inj hh
    exact PyError.noConfusion this
  · norm_num [CPTData.u0, CPTu.make, rows4, colD, GAMMA_W]

/-- `CPTu.qt(an)` (cptu.py lines 78-101): the corrected total cone tip
resistance `qc + u2 * (1 - an)`.  For `an` outside `[0.7, 0.85]` the source
executes `warnings.warn(msg)`, but `cptu.py` never imports the `warnings`
module, so that statement raises `NameError` and the computation is never
reached. -/
def CPTData.qt (c : CPTData) (an : ℚ) : Except PyError (List ℚ) :=
  if an < 7/10 ∨ 17/20 < an then .error .nameError
  else .ok (List.zipWith (fun q u => q + u * (1 - an)) (colD 1 c.mat) (colD 3 c.mat))

/-- C7: for `an` in the recommended range the corrected tip resistance
`qc + u2*(1-an)` is returned (here `10 + 5*(1 - 0.8) = 11`), but for `an`
outside `[0.7, 0.85]` the call raises `NameError` (the un-imported
`warnings` module) instead of emitting a non-fatal warning and
proceeding. -/
theorem c7_qt_out_of_range_an_raises_nameerror :
    (CPTu.make [1] [10] [3] [5] none).qt (4/5) = .ok [11] ∧
    (CPTu.make [1] [10] [3] [5] none).qt (9/10) = .error .nameError := by
  constructor <;> norm_num [CPTData.qt, CPTu.make, rows4, colD]

/-! The iterative Mayne et al. (2010) unit-weight estimate
(`par_unit_weight.mayne_et_al_2010_cpt`, lines 26-54). -/

/-- `geotech_tools.vertical_effective_stress` (geotech_tools.py lines
30-50): its first statement evaluates
`calculate_vertical_stress(depth, unit_weight)`, but no function of that
name exists anywhere in the repository (the helper defined above it is
named `vertical_stress`), so every call raises `NameError` immediately. -/
def vertical_effective_stress (depth unit_weight pore_pressure : List ℚ) :
    Except PyError (List ℚ) :=
  .error .nameError

lemma vertical_effective_stress_always_raises (d uw pp : List ℚ) :
    vertical_effective_stress d uw pp = .error .nameError := rfl

/-- `par_unit_weight.mayne_et_al_2010_cpt(cpt, niterations)` (eq 9): start
from `unit_weight = 19.5` per row, read `pore_pressure = cpt.u0`, then loop
`niterations` times recomputing the effective stress and the unit-weight
update, breaking once the maximum row-wise change drops below `0.01`, and
raise `RuntimeError` after the loop when the last change exceeds `0.01`.
The first statement of every loop iteration calls
`vertical_effective_stress`, which always raises `NameError`
(see above), so no iteration ever completes: for `niterations ≥ 1` the
update formula, the convergence test and the `RuntimeError` path are dead
code (the `.ok ves` arm below is unreachable by
`vertical_effective_stress_always_raises`).  For `niterations = 0` the
loop body never runs and the subsequent `if max_diff > 0.01` reads the
never-assigned local `max_diff`, raising `NameError` as well
(`UnboundLocalError`). -/
def mayne_et_al_2010_cpt (c : CPTData) (niterations : ℕ) : Except PyError (List ℚ) :=
  match c.u0 with
  | .error e => .error e
  | .ok pore_pressure =>
    match niterations with
    | 0 => .error .nameError
    | _ + 1 =>
      match vertical_effective_stress (colD 0 c.mat) (c.mat.map fun _ => (39 : ℚ)/2)
          pore_pressure with
      | .error e => .error e
      | .ok ves => .ok ves

/-- C8: for every store whose `gwt` is set (so that the `cpt.u0` read
succeeds) and every iteration budget `niterations ≥ 1`, the Mayne et al.
(2010) iteration neither returns a converged estimate nor raises the
budget-exhaustion `RuntimeError`: it always raises `NameError`, because the
first statement of the loop body calls `vertical_effective_stress`, whose
body invokes the undefined name `calculate_vertical_stress`. -/
theorem c8_mayne_always_raises_nameerror (c : CPTData) (n : ℕ)
    (hg : c.gwt.isSome = true) (hn : 1 ≤ n) :
    mayne_et_al_2010_cpt c n = .error .nameError := by
  obtain ⟨g, hge⟩ := Option.isSome_iff_exists.mp hg
  cases n with
  | zero => omega
  | succ k =>
    simp [mayne_et_al_2010_cpt, CPTData.u0, hge, vertical_effective_stress]

/-- Witness for C8 at a one-row 4-column store with `gwt = 0` and the
default budget of 10 iterations. -/
theorem c8_mayne_always_raises_nameerror_witness :
    mayne_et_al_2010_cpt (CPTu.make [1] [2] [3] [4] (some 0)) 10 = .error .nameError :=
  c8_mayne_always_raises_nameerror (CPTu.make [1] [2] [3] [4] (some 0)) 10 rfl
    (by norm_num)

/-! The zero-divisor hazard in the outlier screen (C10). -/

/-- The `(qc, fs)` sample variances of the reference region of every row
the outlier screen visits — the squares of the `np.std(..., ddof=1)`
divisors of the z-score computation at cpt.py lines 180-182. -/
def outlierVariances (m : Mat) (w : ℕ) : List (ℚ × ℚ) :=
  (screenIndices m.length w).map
    (fun i => (colVarS 1 (regionOf m i w), colVarS 2 (regionOf m i w)))

/-- A 7-row store whose single screened row (index 3, window 3) has a
reference region with identical `qc` values. -/
def c10_store : CPTData :=
  CPT.make [1/10, 1/5, 3/10, 2/5, 1/2, 3/5, 7/10]
    [100, 100, 100, 100, 100, 100, 100]
    [1, 2, 3, 4, 5, 6, 7]

/-- C10: the z-score division has no zero-divisor guard.  On `c10_store`
with the default window 3 and threshold 6, the screen visits exactly row 3
(it is not skipped), the `qc` sample standard deviation of that row's
reference region is zero (variance `0`; the `fs` variance is `28/5`), so
the division `|qc - mean| / 0` is executed — in numpy it yields `nan`
(`0/0`) with only a runtime warning — and `sanity_check` completes
normally, returning the store unchanged rather than raising an error. -/
theorem c10_zero_std_division_reached :
    screenIndices c10_store.mat.length 3 = [3] ∧
    outlierVariances c10_store.mat 3 = [(0, 28/5)] ∧
    sanity_check c10_store true 3 6 = c10_store := by
  refine ⟨?_, ?_, ?_⟩ <;>
    norm_num [sanity_check, sanityMat, step_outlier, step_qcfs, step_duplicate,
      step_monotonic, step_nonpositive_depth, c10_store, CPT.make, rows3, colD,
      diffs, EPS, flagged, flaggedFrom, flaggedDup, idxWhereFrom, deleteRows,
      deleteRowsFrom, sortRowsByDepth, List.insertionSort, List.orderedInsert,
      rowLE, screenIndices, flaggedOutliers, outlierVariances, List.range_succ,
      regionOf, colMean, colVarS, zExceeds]

/-- Witness for C9 at two stores of different row count: `__eq__` returns
`False` without failing. -/
theorem c9_eq_characterisation_witness :
    pyEq (CPT.make [1] [2] [3]) (CPT.make [1, 2] [3, 4] [5, 6]) = .ok false :=
  (c9_eq_characterisation (CPT.make [1] [2] [3]) (CPT.make [1, 2] [3, 4] [5, 6])).2.2
    (by norm_num [CPT.make, rows3])
